import Mathlib

/-!
Verification of the campaign and lead lifecycle core of the project-x
sales-automation repository.

The definitions below are a shallow embedding of the JavaScript source
(frontend/src/services/api.js, CampaignsTable.jsx, CampaignWizard.jsx,
LeadForm.jsx).  Where the specification describes backend components whose
source is not part of the repository snapshot (the scoring engine, the
campaign state machine transition, the targeting filter and the sequence
scheduler), the corresponding definition is modelled from the specification
and says so in its doc comment.
-/

/-! ## JavaScript string helpers -/

/-- Whitespace characters removed by the JavaScript trim used in the source
(space, tab, newline, carriage return, vertical tab, form feed). -/
def isJSWhitespace (c : Char) : Bool :=
  c == ' ' || c == '\t' || c == '\n' || c == '\r' || c == '\x0b' || c == '\x0c'

/-- Embedding of the JavaScript trim: drop leading and trailing whitespace. -/
def jsTrim (s : String) : String :=
  String.mk (((s.data.dropWhile isJSWhitespace).reverse.dropWhile isJSWhitespace).reverse)

/-! ## Campaign data model (frontend payload shape) -/

/-- The campaign context object: company_name, product_description,
problem_solved, call_to_action, tone (CampaignWizard.jsx formData.context). -/
structure CampaignContext where
  company_name : String
  product_description : String
  problem_solved : String
  call_to_action : String
  tone : String
deriving DecidableEq, Repr

/-- A campaign as the frontend payload carries it: name, optional context
object, delays as a finite mapping from step position to day offset, status
string, and a scheduled start timestamp (measured in days here). -/
structure Campaign where
  name : String
  context : Option CampaignContext
  delays : List (Nat × Int)
  status : String
  scheduled_start : Int
deriving DecidableEq, Repr

/-- Translation of validateCampaignData (frontend/src/services/api.js,
src/unnamed/part_001 lines 192-217).  Collects every error: a missing or
blank name, a missing context object, and for a present context each of the
four checked fields that is blank after trimming.  The JavaScript falsiness
test on a string field coincides with the trimmed field being empty. -/
def validateCampaignData (c : Campaign) : List String :=
  (if jsTrim c.name = "" then ["Campaign name is required"] else []) ++
  (match c.context with
   | none => ["Campaign context is required"]
   | some ctx =>
     (if jsTrim ctx.company_name = "" then ["Company name is required"] else []) ++
     (if jsTrim ctx.product_description = "" then ["Product description is required"] else []) ++
     (if jsTrim ctx.problem_solved = "" then ["Problem solved description is required"] else []) ++
     (if jsTrim ctx.call_to_action = "" then ["Call to action is required"] else []))

/-- The error taxonomy of the specification (section 7). -/
inductive CampaignError where
  | validationFailed (errors : List String)
  | invalidTransition (current requested : String)
  | campaignLocked
  | notFound
  | tenantMismatch
deriving DecidableEq, Repr

/-- Modelled from the spec: the campaign state machine transition
(section 4.3) is not present under src/ (the FastAPI backend services are
not part of the snapshot).  Transition to active runs validateCampaignData,
translated from the source; on failure the campaign is returned unchanged
together with a ValidationFailed error carrying the full error list.
Transition to inactive is allowed only from active; any other request is an
InvalidTransition.  The result pairs the (possibly updated) campaign with an
optional error, so that absence of change on failure is explicit. -/
def transitionCampaign (c : Campaign) (target : String) : Campaign × Option CampaignError :=
  if target = "active" then
    match validateCampaignData c with
    | [] => ({ c with status := "active" }, none)
    | errs => (c, some (CampaignError.validationFailed errs))
  else if target = "inactive" then
    if c.status = "active" then ({ c with status := "inactive" }, none)
    else (c, some (CampaignError.invalidTransition c.status target))
  else (c, some (CampaignError.invalidTransition c.status target))

/-- A PATCH body for a campaign: each field is present or absent. -/
structure CampaignPatch where
  name : Option String
  context : Option CampaignContext
  delays : Option (List (Nat × Int))
deriving DecidableEq, Repr

/-- Whether the patch touches one of the fields that are locked while the
campaign is active (name, context, delays). -/
def touchesLockedFields (p : CampaignPatch) : Bool :=
  p.name.isSome || p.context.isSome || p.delays.isSome

/-- Modelled from the spec: the edit-lock enforcement for active campaigns
(sections 4.3 and 7) lives in the absent backend; updateCampaign in
src/unnamed/part_001 lines 127-132 is a plain PATCH passthrough.  Editing
name, context or delays while the status is active is rejected with
CampaignLocked and leaves the campaign unchanged; otherwise the present
patch fields are applied. -/
def applyCampaignUpdate (c : Campaign) (p : CampaignPatch) : Campaign × Option CampaignError :=
  if c.status == "active" && touchesLockedFields p then
    (c, some CampaignError.campaignLocked)
  else
    ({ c with
        name := p.name.getD c.name,
        context := match p.context with | some ctx => some ctx | none => c.context,
        delays := p.delays.getD c.delays }, none)

/-- Translation of the edit-button guard of CampaignsTable.jsx
(src/unnamed/part_001 line 466): the edit action is disabled while the row
is loading or the campaign status is active. -/
def editButtonDisabled (itemLoading : Bool) (status : String) : Bool :=
  itemLoading || status == "active"

/-- Translation of the status computation of handleToggleStatus
(CampaignsTable.jsx, src/unnamed/part_001 lines 328-353): active toggles to
inactive; inactive and draft toggle to active; any other current status
leaves newStatus undefined. -/
def toggleTargetStatus (current : String) : Option String :=
  if current == "active" then some "inactive"
  else if current == "inactive" || current == "draft" then some "active"
  else none

/-- The body of the PATCH issued by updateCampaignStatus
(src/unnamed/part_001 lines 146-151): JSON.stringify drops a field whose
value is undefined, so an undefined status produces an empty body. -/
def statusPatchBody (newStatus : Option String) : List (String × String) :=
  match newStatus with
  | some v => [("status", v)]
  | none => []

/-! ## Query string construction (fetchLeads / fetchCampaigns) -/

/-- A JavaScript value as far as the query-string loop distinguishes them. -/
inductive JSVal where
  | jsNull
  | jsUndef
  | jsStr (s : String)
  | jsNum (n : Int)
  | jsBool (b : Bool)
deriving DecidableEq, Repr

/-- The keep condition of the Object.entries loop shared by fetchLeads and
fetchCampaigns (src/unnamed/part_001 lines 64-68 and 104-108): a pair is
appended when its value is strictly different from null, undefined and the
empty string. -/
def keepQueryParam (v : JSVal) : Bool :=
  !(v == JSVal.jsNull) && !(v == JSVal.jsUndef) && !(v == JSVal.jsStr "")

/-- Translation of the query-parameter construction of fetchLeads
(src/unnamed/part_001 lines 60-74) and fetchCampaigns (lines 100-114): the
appended pairs are exactly the input pairs whose value passes
keepQueryParam, in input order. -/
def buildQueryParams (params : List (String × JSVal)) : List (String × JSVal) :=
  params.filter (fun kv => keepQueryParam kv.2)

/-! ## Lead data model and scoring -/

/-- The scoring-relevant fields of a lead (data model of the spec,
section 3): required email, optional contact fields, source, status and the
stored score (an integer in 0..100 per the data model). -/
structure Lead where
  email : String
  company_name : Option String
  job_title : Option String
  phone : Option String
  source : Option String
  status : String
  score : Nat
deriving DecidableEq, Repr

/-- Senior-role keywords of the scoring rule (spec section 4.1). -/
def seniorKeywords : List String :=
  ["VP", "Director", "Chief", "Head of", "Manager"]

/-- Known free-consumer email domains of the scoring rule (spec section 4.1). -/
def freeEmailDomains : List String :=
  ["gmail.com", "yahoo.com", "hotmail.com", "outlook.com", "aol.com"]

/-- Does pat occur as a contiguous sublist of the list being searched. -/
def subAt (pat : List Char) : List Char → Bool
  | [] => pat.isEmpty
  | c :: rest => pat.isPrefixOf (c :: rest) || subAt pat rest

/-- Substring containment between strings. -/
def strContainsSub (s pat : String) : Bool :=
  subAt pat.data s.data

/-- An optional string field is present and non-empty. -/
def optionNonEmpty (o : Option String) : Bool :=
  match o with
  | some s => !(s == "")
  | none => false

/-- The characters after the last at sign of an email address, empty when
none occurs. -/
def emailDomain (e : String) : String :=
  if e.data.contains '@' then
    String.mk ((e.data.reverse.takeWhile (fun c => !(c == '@'))).reverse)
  else ""

/-- Modelled from the spec: the scoring engine (spec section 4.1 and the
identical rule list of README.md) lives in the absent backend
lead_service.py.  Additive rule set: non-empty company_name 20, non-empty
job_title 15, senior-role keyword in the job title 20, non-empty phone 10,
email domain not a known free-consumer domain 10, source linkedin or
referral 10; the sum is clipped to 0..100. -/
def scoreLead (l : Lead) : Nat :=
  let companyPts := if optionNonEmpty l.company_name then 20 else 0
  let titlePts := if optionNonEmpty l.job_title then 15 else 0
  let seniorPts :=
    if (match l.job_title with
        | some t => seniorKeywords.any (fun k => strContainsSub t k)
        | none => false) then 20 else 0
  let phonePts := if optionNonEmpty l.phone then 10 else 0
  let domainPts := if freeEmailDomains.contains (emailDomain l.email) then 0 else 10
  let sourcePts :=
    if (match l.source with
        | some s => s == "linkedin" || s == "referral"
        | none => false) then 10 else 0
  min (companyPts + titlePts + seniorPts + phonePts + domainPts + sourcePts) 100

/-! ## Targeting filter -/

/-- A campaign lead_filter: minimum score, status and source, each optional
(spec section 4.5; the wizard initialises the same three fields,
CampaignWizard.jsx lines 26-30). -/
structure LeadFilter where
  min_score : Option Nat
  status : Option String
  source : Option String
deriving DecidableEq, Repr

/-- The filter with every field unset. -/
def emptyLeadFilter : LeadFilter :=
  { min_score := none, status := none, source := none }

/-- Modelled from the spec: the targeting predicate (section 4.5).  A lead
matches when its score reaches min_score (default 0), its status equals the
filter status or that is unset, and its source equals the filter source or
that is unset. -/
def matchesFilter (f : LeadFilter) (l : Lead) : Bool :=
  decide (f.min_score.getD 0 ≤ l.score) &&
  (match f.status with | none => true | some s => l.status == s) &&
  (match f.source with | none => true | some s => l.source == some s)

/-- Modelled from the spec: the targeting filter (section 4.5), a pure
order-preserving selection of the matching leads. -/
def targets (f : LeadFilter) (leads : List Lead) : List Lead :=
  leads.filter (matchesFilter f)

/-! ## Sequence scheduler -/

/-- Ordering of delay entries by step position. -/
def stepLE (a b : Nat × Int) : Prop :=
  a.1 ≤ b.1

instance : DecidableRel stepLE :=
  fun a b => Nat.decLe a.1 b.1

instance : IsTotal (Nat × Int) stepLE :=
  ⟨fun a b => Nat.le_total a.1 b.1⟩

instance : IsTrans (Nat × Int) stepLE :=
  ⟨fun _ _ _ h₁ h₂ => Nat.le_trans h₁ h₂⟩

/-- The delay entries of a campaign sorted by step position ascending. -/
def sortedDelays (c : Campaign) : List (Nat × Int) :=
  List.insertionSort stepLE c.delays

/-- Modelled from the spec: the sequence scheduler (section 4.4) lives in
the absent backend.  For each targeted lead and each delay entry, sorted by
step position ascending and honoured as-is without renumbering, it emits
(lead id, step position, due time) with due time equal to scheduled_start
plus the day offset of the step. -/
def schedule (c : Campaign) (leadIds : List Nat) : List (Nat × Nat × Int) :=
  leadIds.flatMap (fun lid =>
    (sortedDelays c).map (fun pd => (lid, pd.1, c.scheduled_start + pd.2)))

/-! ## Lead form payload (LeadForm.jsx) -/

/-- The state of the lead form (LeadForm.jsx formData, lines 11-23): all
fields are strings except the score, which handleInputChange keeps as a
number parsed from the input. -/
structure LeadFormState where
  email : String
  first_name : String
  last_name : String
  company_name : String
  job_title : String
  phone : String
  linkedin_url : String
  source : String
  source_url : String
  notes : String
  score : Int
deriving DecidableEq, Repr

/-- The trim-or-null idiom of handleSubmit: a blank optional field becomes
null in the payload, a non-blank one is sent trimmed. -/
def trimOrNull (s : String) : Option String :=
  let t := jsTrim s
  if t == "" then none else some t

/-- The create/update payload built by handleSubmit. -/
structure LeadPayload where
  email : String
  first_name : Option String
  last_name : Option String
  company_name : Option String
  job_title : Option String
  phone : Option String
  linkedin_url : Option String
  source_url : Option String
  notes : Option String
  source : String
  score : Int
deriving DecidableEq, Repr

/-- Translation of the payload preparation of handleSubmit (LeadForm.jsx
lines 113-124): the spread keeps email, source and score as entered, and
each optional field is trimmed with blank mapped to null.  The score is
passed through unchanged. -/
def prepareLeadData (f : LeadFormState) : LeadPayload :=
  { email := f.email
    first_name := trimOrNull f.first_name
    last_name := trimOrNull f.last_name
    company_name := trimOrNull f.company_name
    job_title := trimOrNull f.job_title
    phone := trimOrNull f.phone
    linkedin_url := trimOrNull f.linkedin_url
    source_url := trimOrNull f.source_url
    notes := trimOrNull f.notes
    source := f.source
    score := f.score }

/-- The lead a submitted payload describes, for comparison with the scoring
rule (status defaults to new on ingestion, spec section 3). -/
def payloadLead (p : LeadPayload) : Lead :=
  { email := p.email
    company_name := p.company_name
    job_title := p.job_title
    phone := p.phone
    source := some p.source
    status := "new"
    score := p.score.toNat }

/-! ## Concrete instances used by scenario theorems, counterexamples and witnesses -/

/-- The scenario lead of the spec (section 8): company Acme, job title VP of
Sales, phone 555-1234, email vp at acme.com, source linkedin. -/
def acmeLead : Lead :=
  { email := "vp@acme.com", company_name := some "Acme", job_title := some "VP of Sales",
    phone := some "555-1234", source := some "linkedin", status := "new", score := 0 }

/-- A draft campaign whose name and two context fields are blank. -/
def c1BadCampaign : Campaign :=
  { name := "",
    context := some { company_name := "", product_description := "Widgets",
                      problem_solved := "", call_to_action := "Book a demo",
                      tone := "Professional" },
    delays := [(1, 0)], status := "draft", scheduled_start := 0 }

/-- A draft campaign with a non-blank name, the four checked context fields
non-blank, and an empty delays mapping. -/
def c2OkNoDelays : Campaign :=
  { name := "Q1 Outreach",
    context := some { company_name := "Acme", product_description := "Widgets",
                      problem_solved := "Slow sales", call_to_action := "Book a demo",
                      tone := "" },
    delays := [], status := "draft", scheduled_start := 0 }

/-- The same campaign with a negative delay value. -/
def c2NegDelay : Campaign :=
  { c2OkNoDelays with delays := [(1, -3)] }

/-- A lead form state whose only populated fields are the email, the source
and a hand-entered score of 55. -/
def c3Form : LeadFormState :=
  { email := "jane@gmail.com", first_name := "", last_name := "", company_name := "",
    job_title := "", phone := "", linkedin_url := "", source := "other", source_url := "",
    notes := "", score := 55 }

/-- The scheduling scenario campaign of the spec (section 8): delays with
steps 1 and 3 only, scheduled start t0. -/
def scenarioCampaign (t0 : Int) : Campaign :=
  { name := "Scenario", context := none, delays := [(1, 0), (3, 5)],
    status := "active", scheduled_start := t0 }

/-- An active campaign, used to exercise the edit lock. -/
def lockedCampaign : Campaign :=
  { name := "Running", context := none, delays := [(1, 0)],
    status := "active", scheduled_start := 0 }

/-- A patch that renames a campaign. -/
def namePatch : CampaignPatch :=
  { name := some "Renamed", context := none, delays := none }

/-! ## Helper lemmas -/

/-- The sum of a constant-valued map is the length times the constant. -/
theorem list_sum_map_const {α : Type} (l : List α) (k : Nat) :
    (l.map (fun _ => k)).sum = l.length * k := by
  induction l with
  | nil => simp
  | cons a t ih => simp [ih, Nat.succ_mul, Nat.add_comm]

/-! ## Claim theorems -/

/-- C1: transition of any campaign to active succeeds exactly when
validateCampaignData returns no errors; on failure the result is a
ValidationFailed error carrying the full error list (each violated rule has
its message in the list, not only the first) and the campaign, in
particular its status, is unchanged. -/
theorem campaign_activation_validation (c : Campaign) :
    ((transitionCampaign c "active").2 = none ↔ validateCampaignData c = [])
    ∧ (validateCampaignData c ≠ [] →
        transitionCampaign c "active" =
          (c, some (CampaignError.validationFailed (validateCampaignData c))))
    ∧ (jsTrim c.name = "" → "Campaign name is required" ∈ validateCampaignData c)
    ∧ (c.context = none → "Campaign context is required" ∈ validateCampaignData c)
    ∧ (∀ ctx, c.context = some ctx →
        (jsTrim ctx.company_name = "" →
          "Company name is required" ∈ validateCampaignData c)
        ∧ (jsTrim ctx.product_description = "" →
            "Product description is required" ∈ validateCampaignData c)
        ∧ (jsTrim ctx.problem_solved = "" →
            "Problem solved description is required" ∈ validateCampaignData c)
        ∧ (jsTrim ctx.call_to_action = "" →
            "Call to action is required" ∈ validateCampaignData c)) := by
  refine ⟨?_, ?_, ?_, ?_, ?_⟩
  · cases hv : validateCampaignData c with
    | nil => simp [transitionCampaign, hv]
    | cons a t => simp [transitionCampaign, hv]
  · intro hne
    cases hv : validateCampaignData c with
    | nil => exact absurd hv hne
    | cons a t => simp [transitionCampaign, hv]
  · intro h
    simp [validateCampaignData, h]
  · intro h
    simp [validateCampaignData, h]
  · intro ctx hctx
    refine ⟨?_, ?_, ?_, ?_⟩ <;> intro h <;> simp [validateCampaignData, hctx, h]

/-- C2 (amended): validateCampaignData passes exactly when the trimmed name
is non-empty and the context object is present with its four checked fields
(company_name, product_description, problem_solved, call_to_action)
non-empty after trimming; the delays mapping is not examined at all, so it
cannot cause validation to fail. -/
theorem validateCampaign_passes_iff_name_and_context (c : Campaign) :
    (validateCampaignData c = [] ↔
      jsTrim c.name ≠ "" ∧ ∃ ctx, c.context = some ctx
        ∧ jsTrim ctx.company_name ≠ "" ∧ jsTrim ctx.product_description ≠ ""
        ∧ jsTrim ctx.problem_solved ≠ "" ∧ jsTrim ctx.call_to_action ≠ "")
    ∧ ∀ ds, validateCampaignData { c with delays := ds } = validateCampaignData c := by
  constructor
  · constructor
    · intro h
      by_cases hn : jsTrim c.name = ""
      · simp [validateCampaignData, hn] at h
      · cases hc : c.context with
        | none => simp [validateCampaignData, hn, hc] at h
        | some ctx =>
          simp [validateCampaignData, hn, hc, List.append_eq_nil] at h
          refine ⟨hn, ctx, rfl, ?_, ?_, ?_, ?_⟩ <;>
            intro hx <;> simp [hx] at h
    · rintro ⟨hn, ctx, hc, h1, h2, h3, h4⟩
      simp [validateCampaignData, hn, hc, h1, h2, h3, h4]
  · intro ds
    rfl

/-- C2 (counterexample): a campaign with a non-blank name and the four
checked context fields populated passes validateCampaignData even though its
delays mapping is empty, and likewise with a negative delay value, refuting
that such campaigns fail validation. -/
theorem validateCampaign_ignores_delays_cex :
    validateCampaignData c2OkNoDelays = [] ∧ c2OkNoDelays.delays = []
    ∧ validateCampaignData c2NegDelay = [] ∧ c2NegDelay.delays = [(1, -3)] := by
  refine ⟨by decide, rfl, by decide, rfl⟩

/-- C3 (amended): the lead create/update payload built by handleSubmit
carries the score exactly as entered in the form (the Initial Score input):
the public interface passes a hand-set score through, with no recomputation
from the scoring rule and no clamping. -/
theorem leadForm_payload_keeps_entered_score (f : LeadFormState) :
    (prepareLeadData f).score = f.score := rfl

/-- C3 (counterexample): a form submission whose only populated fields are a
free-domain email and the source other, with a hand-entered score of 55,
produces a payload carrying score 55, while the scoring rule assigns that
same lead a score of 0 - so the public interface can set a score
inconsistent with the scoring rule. -/
theorem leadForm_score_inconsistent_cex :
    (prepareLeadData c3Form).score = 55
    ∧ scoreLead (payloadLead (prepareLeadData c3Form)) = 0
    ∧ (55 : Int) ≠ 0 := by
  refine ⟨rfl, by decide, by decide⟩

/-- C4: the scoring rule yields an integer within 0..100 for every lead and
is deterministic - identical inputs give identical outputs. -/
theorem scoreLead_range_and_deterministic (l : Lead) :
    0 ≤ scoreLead l ∧ scoreLead l ≤ 100 ∧ scoreLead l = scoreLead l := by
  refine ⟨Nat.zero_le _, ?_, rfl⟩
  unfold scoreLead
  exact Nat.min_le_right _ _

/-- C5: the scenario lead (company Acme, job title VP of Sales, phone
555-1234, email vp at acme.com, source linkedin) scores
20 + 15 + 20 + 10 + 10 + 10 = 85 under the scoring rule. -/
theorem scoreLead_acme_scenario : scoreLead acmeLead = 85 := by decide

/-- C6: targets returns a sublist of the input (a subset preserving relative
order); every returned lead satisfies the filter predicate - its score
reaches min_score (default 0), its status equals the filter status when that
is set, and its source equals the filter source when that is set; and the
empty filter returns the input unchanged. -/
theorem targets_sublist_predicate_empty (f : LeadFilter) (leads : List Lead) :
    List.Sublist (targets f leads) leads
    ∧ (∀ l, l ∈ targets f leads →
        f.min_score.getD 0 ≤ l.score
        ∧ (∀ s, f.status = some s → l.status = s)
        ∧ (∀ s, f.source = some s → l.source = some s))
    ∧ targets emptyLeadFilter leads = leads := by
  refine ⟨List.filter_sublist leads, ?_, ?_⟩
  · intro l hl
    have hm : matchesFilter f l = true := List.of_mem_filter hl
    unfold matchesFilter at hm
    simp only [Bool.and_eq_true, decide_eq_true_eq] at hm
    refine ⟨hm.1.1, ?_, ?_⟩
    · intro s hs
      have := hm.1.2
      rw [hs] at this
      exact eq_of_beq this
    · intro s hs
      have := hm.2
      rw [hs] at this
      exact eq_of_beq this
  · refine List.filter_eq_self.mpr ?_
    intro a _
    simp [matchesFilter, emptyLeadFilter]

/-- C7: the scheduler emits one entry per targeted lead and per delay key,
every entry pairs a targeted lead with a configured step and the due time
scheduled_start plus that step's day offset, the entries of a single lead
are ordered by step position ascending, and for the scenario campaign with
delays at steps 1 and 3 (gap honoured as-is) and one targeted lead the
output is exactly [(lead, 1, t0), (lead, 3, t0 + 5)]. -/
theorem schedule_entries_order_scenario (c : Campaign) (leadIds : List Nat)
    (lid : Nat) (t0 : Int) :
    (schedule c leadIds).length = leadIds.length * c.delays.length
    ∧ (∀ e, e ∈ schedule c leadIds →
        ∃ l, l ∈ leadIds ∧ ∃ pd, pd ∈ c.delays
          ∧ e = (l, pd.1, c.scheduled_start + pd.2))
    ∧ List.Pairwise (fun a b => a.2.1 ≤ b.2.1) (schedule c [lid])
    ∧ schedule (scenarioCampaign t0) [lid] = [(lid, 1, t0), (lid, 3, t0 + 5)] := by
  have hperm : (sortedDelays c).Perm c.delays := List.perm_insertionSort stepLE c.delays
  refine ⟨?_, ?_, ?_, ?_⟩
  · unfold schedule
    rw [List.length_flatMap]
    have hlen : ∀ lid₀ : Nat,
        ((sortedDelays c).map
          (fun pd => (lid₀, pd.1, c.scheduled_start + pd.2))).length = c.delays.length := by
      intro lid₀
      rw [List.length_map]
      exact hperm.length_eq
    calc (leadIds.map (fun lid₀ =>
            ((sortedDelays c).map
              (fun pd => (lid₀, pd.1, c.scheduled_start + pd.2))).length)).sum
        = (leadIds.map (fun _ => c.delays.length)).sum := by
          exact congrArg List.sum (List.map_congr_left (fun lid₀ _ => hlen lid₀))
      _ = leadIds.length * c.delays.length := list_sum_map_const leadIds c.delays.length
  · intro e he
    unfold schedule at he
    rw [List.mem_flatMap] at he
    obtain ⟨l, hl, hmem⟩ := he
    rw [List.mem_map] at hmem
    obtain ⟨pd, hpd, rfl⟩ := hmem
    exact ⟨l, hl, pd, hperm.mem_iff.mp hpd, rfl⟩
  · have hs : List.Pairwise stepLE (sortedDelays c) :=
      List.sorted_insertionSort stepLE c.delays
    unfold schedule
    simp only [List.flatMap_cons, List.flatMap_nil, List.append_nil]
    rw [List.pairwise_map]
    exact hs
  · simp [schedule, scenarioCampaign, sortedDelays, List.insertionSort,
      List.orderedInsert, stepLE]

/-- C8: a PATCH that touches the name, context or delays of a campaign whose
status is active is rejected with CampaignLocked, an error distinct from
every InvalidTransition, and the campaign is left unchanged; the table UI
likewise disables the edit action for an active campaign. -/
theorem active_campaign_edit_rejected_locked (c : Campaign) (p : CampaignPatch)
    (hactive : c.status = "active") (htouch : touchesLockedFields p = true) :
    (applyCampaignUpdate c p).1 = c
    ∧ (applyCampaignUpdate c p).2 = some CampaignError.campaignLocked
    ∧ (∀ s t, (CampaignError.campaignLocked : CampaignError)
        ≠ CampaignError.invalidTransition s t)
    ∧ editButtonDisabled false "active" = true := by
  have hcond : (c.status == "active" && touchesLockedFields p) = true := by
    simp [hactive, htouch]
  refine ⟨?_, ?_, ?_, rfl⟩
  · simp [applyCampaignUpdate, hcond]
  · simp [applyCampaignUpdate, hcond]
  · intro s t h
    exact CampaignError.noConfusion h

/-- Witness for C8: renaming the concrete active campaign is rejected with
CampaignLocked and leaves the campaign unchanged. -/
theorem active_campaign_edit_rejected_locked_witness :
    (applyCampaignUpdate lockedCampaign namePatch).1 = lockedCampaign
    ∧ (applyCampaignUpdate lockedCampaign namePatch).2
        = some CampaignError.campaignLocked :=
  ⟨(active_campaign_edit_rejected_locked lockedCampaign namePatch rfl rfl).1,
   (active_campaign_edit_rejected_locked lockedCampaign namePatch rfl rfl).2.1⟩

/-- C9: the table toggle requests inactive for an active campaign and active
for an inactive or draft campaign (a draft is activated directly, never sent
towards inactive); for any other current status the computed status stays
undefined and the PATCH body carries no status field. -/
theorem toggle_status_requested_target :
    toggleTargetStatus "active" = some "inactive"
    ∧ toggleTargetStatus "inactive" = some "active"
    ∧ toggleTargetStatus "draft" = some "active"
    ∧ (∀ s, s ≠ "active" → s ≠ "inactive" → s ≠ "draft" →
        toggleTargetStatus s = none ∧ statusPatchBody (toggleTargetStatus s) = []) := by
  refine ⟨rfl, rfl, rfl, ?_⟩
  intro s h1 h2 h3
  have e1 : (s == "active") = false := by simp [h1]
  have e2 : (s == "inactive") = false := by simp [h2]
  have e3 : (s == "draft") = false := by simp [h3]
  constructor
  · simp [toggleTargetStatus, e1, e2, e3]
  · simp [toggleTargetStatus, statusPatchBody, e1, e2, e3]

/-- C10: the query built by fetchLeads and fetchCampaigns keeps exactly the
input pairs whose value is neither null, nor undefined, nor the empty
string, in input order; in particular a filter field cleared to the empty
string is omitted from the request entirely. -/
theorem fetch_query_params_exactly_nonempty :
    (∀ (params : List (String × JSVal)) (kv : String × JSVal),
        kv ∈ buildQueryParams params ↔
          kv ∈ params ∧ kv.2 ≠ JSVal.jsNull ∧ kv.2 ≠ JSVal.jsUndef
            ∧ kv.2 ≠ JSVal.jsStr "")
    ∧ (∀ (k : String) (rest : List (String × JSVal)),
        buildQueryParams ((k, JSVal.jsStr "") :: rest) = buildQueryParams rest) := by
  constructor
  · intro params kv
    simp [buildQueryParams, keepQueryParam, List.mem_filter, and_assoc]
  · intro k rest
    unfold buildQueryParams
    rw [List.filter_cons]
    simp [keepQueryParam]
